import Mathlib

/-!
Verification of the operator registration and dispatch subsystem of
`aten/src/ATen/core/op_registration/op_registration.h`.

The header under `src/` declares the registration API (`RegisterOperators`,
`RegisterOperators::Options`, `CppFunction`, `Library`, `c10::dispatch`,
`c10::schema`, `c10::detail::constructSchemaOrName`) and templated kernel
construction paths; the dispatcher, parser and the bodies of
`checkSchemaAndRegisterOp_` / `checkNoDuplicateKernels_` / the destructor are
external to the excerpt and are modelled from the specification where a claim
depends on them (each such definition says so in its doc comment).
-/

set_option autoImplicit false

/-- Dispatch keys. Modelled from the spec: the DispatchKey collaborator is "a
fixed enumeration of keys" (spec section 6); the enumeration itself lives in
`c10/core/DispatchKey.h`, outside `src/`. We include the keys named by the
header (`CPU`, `CUDA`, `XLA`, `HIP`, `MSNPU`, the sentinel `CatchAll`) plus
representatives of the remaining members. -/
inductive DispatchKey where
  | Undefined
  | CPU
  | CUDA
  | HIP
  | XLA
  | MSNPU
  | PrivateUse1
  | CatchAll
deriving DecidableEq, Repr

/-- Device types. Modelled from the spec: the DeviceType collaborator
enumeration (spec section 6) lives in `c10/core/DeviceType.h`, outside `src/`.
We include the five device types the header's `deviceTypeToDispatchKey` lambda
maps plus representatives of the unmapped members. -/
inductive DeviceType where
  | CPU
  | CUDA
  | MKLDNN
  | OPENGL
  | OPENCL
  | IDEEP
  | HIP
  | FPGA
  | MSNPU
  | XLA
deriving DecidableEq, Repr

/-- Alias analysis kinds. Modelled from the spec: the enumeration is part of
the Schema Model collaborator (spec sections 3 and 4.2); its members are those
of `c10::AliasAnalysisKind` referenced by the header (`FROM_SCHEMA` at src
line 764 and 779). -/
inductive AliasAnalysisKind where
  | INTERNAL_SPECIAL_CASE
  | CONSERVATIVE
  | FROM_SCHEMA
  | PURE_FUNCTION
deriving DecidableEq, Repr

/-- Operator names. Modelled from the spec, section 3: `OperatorName` is
`{namespace: string, name: string, overload: string}` with structural
equality; the C++ type lives outside `src/`. -/
structure OperatorName where
  ns : String
  name : String
  overload : String
deriving DecidableEq, Repr

/-- One typed argument of a schema. Modelled from the spec, section 3
(`TypedArg` of a `FunctionSchema`); the C++ `c10::Argument` lives outside
`src/`. The type is kept as text since the tensor type system is out of scope
(spec section 1). -/
structure Argument where
  type : String
  name : String
deriving DecidableEq, Repr

/-- Function schemas. Modelled from the spec, section 3: `{name, arguments,
returns, aliasAnalysisKind}`. The C++ `c10::FunctionSchema`
(`aten/src/ATen/core/function_schema.h`, outside `src/`) default-initialises
its alias-analysis kind to `CONSERVATIVE`; a freshly parsed schema therefore
carries `CONSERVATIVE` until an entry point explicitly calls
`setAliasAnalysis` (as `c10::schema` does at src line 760 and
`constructSchemaOrName` at src line 779). -/
structure FunctionSchema where
  name : OperatorName
  arguments : List Argument
  returns : List String
  aliasAnalysisKind : AliasAnalysisKind
deriving DecidableEq, Repr

/-- Embeds `FunctionSchema::setAliasAnalysis` as used at src lines 760 and
779: replace the alias-analysis kind, keep everything else. -/
def FunctionSchema.setAliasAnalysis (s : FunctionSchema) (k : AliasAnalysisKind) : FunctionSchema :=
  { s with aliasAnalysisKind := k }

/-- Signature-only structural equality of two schemas (name, arguments and
returns; the alias-analysis kind is registration metadata). Used by the
spec-modelled registration algorithm, section 4.3 step 3. -/
def FunctionSchema.sigEq (a b : FunctionSchema) : Bool :=
  a.name == b.name && a.arguments == b.arguments && a.returns == b.returns

/-- The error taxonomy of spec section 7, refined by the concrete failure
sites of the header: configuration errors (duplicate kernels, schema or alias
analysis specified twice, schema mismatches), parse errors, resolution errors
and the fatal device mapping failure of `c10::dispatch(DeviceType, ...)`
(src lines 749-752). -/
inductive RegError where
  | schemaAlreadySpecified
  | aliasAnalysisAlreadySpecified
  | missingSchemaOrName
  | cannotInferSchema (name : OperatorName)
  | inferredSchemaMismatch (name : OperatorName)
  | duplicateKernel (name : OperatorName)
  | schemaMismatch (name : OperatorName)
  | slotOccupied (name : OperatorName) (key : Option DispatchKey)
  | parseError (text : String)
  | unknownOperator (name : OperatorName)
  | noKernelFound (name : OperatorName) (key : DispatchKey)
  | unsupportedDevice (t : DeviceType)
deriving DecidableEq, Repr

/-- Which errors the spec's section 7 taxonomy classifies as
*ConfigurationError* (always fatal at registration time). -/
def RegError.isConfigurationError : RegError → Bool
  | .schemaAlreadySpecified => true
  | .aliasAnalysisAlreadySpecified => true
  | .missingSchemaOrName => true
  | .cannotInferSchema _ => true
  | .inferredSchemaMismatch _ => true
  | .duplicateKernel _ => true
  | .schemaMismatch _ => true
  | .slotOccupied _ _ => true
  | _ => false

/-- Modelled from the spec: parsing the textual operator-name form
(`ns::name.overload`). The textual schema grammar and its parser are external
collaborators (spec sections 1 and 6, `torch::jit::parseSchemaOrName`), not
present under `src/`. -/
def parseOperatorName (text : String) : OperatorName :=
  let (nsPart, rest) :=
    match text.splitOn "::" with
    | [n] => ("", n)
    | n :: more => (n, String.intercalate "::" more)
    | [] => ("", "")
  match rest.splitOn "." with
  | [n] => { ns := nsPart, name := n, overload := "" }
  | n :: more => { ns := nsPart, name := n, overload := String.intercalate "." more }
  | [] => { ns := nsPart, name := "", overload := "" }

/-- Modelled from the spec: parsing one textual argument declaration
("Type name") of a schema. Part of the external schema parser collaborator. -/
def parseArgument (text : String) : Argument :=
  match text.splitOn " " with
  | [t] => { type := t, name := "" }
  | t :: more => { type := t, name := String.intercalate " " more }
  | [] => { type := "", name := "" }

/-- Modelled from the spec: `torch::jit::parseSchema` (spec section 6,
`parseSchema(text) -> FunctionSchema | ParseError`), an external collaborator
not under `src/`. The model reads `name(arg, ...) -> ret` structurally. The
returned schema carries the `FunctionSchema` collaborator's default
alias-analysis kind `CONSERVATIVE`; entry points that default the kind to
"derive from schema text" do so by an explicit `setAliasAnalysis` call
afterwards (src lines 758-765 and 776-782). -/
def parseSchema (text : String) : FunctionSchema :=
  let namePart := text.takeWhile (fun c => c ≠ '(')
  let afterName := (text.dropWhile (fun c => c ≠ '(')).drop 1
  let argsPart := afterName.takeWhile (fun c => c ≠ ')')
  let args := if argsPart = "" then [] else (argsPart.splitOn ", ").map parseArgument
  let rets :=
    match text.splitOn " -> " with
    | [_, r] => (r.splitOn ", ").map (fun t => t)
    | _ => []
  { name := parseOperatorName namePart
    arguments := args
    returns := rets
    aliasAnalysisKind := AliasAnalysisKind.CONSERVATIVE }

/-- Modelled from the spec: `torch::jit::parseSchemaOrName` (spec section 6,
`parseSchemaOrName(text) -> OperatorName | FunctionSchema | ParseError`), an
external collaborator not under `src/`. Text with a parenthesised argument
list parses to a full `FunctionSchema`, bare text to an `OperatorName`. -/
def parseSchemaOrName (text : String) : OperatorName ⊕ FunctionSchema :=
  if text.toList.contains '(' then Sum.inr (parseSchema text)
  else Sum.inl (parseOperatorName text)

/-- The static argument/return signature of a C++ callable, as seen by the
template introspection `c10::guts::infer_function_traits_t` (outside `src/`).
A shallow stand-in for the compile-time type information the header's kernel
paths introspect. -/
structure FunctionSig where
  arguments : List Argument
  returns : List String
deriving DecidableEq, Repr

/-- Embeds `detail::inferFunctionSchemaFromFunctor` (src lines 19-23): builds
a `FunctionSchema` with empty name and overload name from the callable's
static signature, via `inferFunctionSchemaFlattenedReturns<func_type>("", "")`.
It always returns a non-null schema (`std::make_unique`); the alias-analysis
kind is the `FunctionSchema` collaborator default. -/
def inferFunctionSchemaFromFunctor (sig : FunctionSig) : Option FunctionSchema :=
  some
    { name := { ns := "", name := "", overload := "" }
      arguments := sig.arguments
      returns := sig.returns
      aliasAnalysisKind := AliasAnalysisKind.CONSERVATIVE }

/-- Type-erased kernel functions, one constructor per `KernelFunction` factory
the header calls. The `KernelFunction` class itself is a collaborator outside
`src/`; the constructors record which factory produced the value, the
`AllowLegacyTypes` template argument where the header passes it explicitly
(src lines 532-535, 562-565, 578-581), and a number identifying the
underlying C++ callable. -/
inductive KernelFunction where
  | missing
  | fromBoxedFunction (fn : Nat)
  | fromUnboxedFunctor (allowDeprecatedTypes : Bool) (functor : Nat)
  | fromUnboxedFunction (fn : Nat)
  | fromUnboxedRuntimeFunction (allowLegacyTypes : Bool) (fn : Nat)
  | fromUnboxedOnlyRuntimeFunction (fn : Nat)
  | fromUnboxedLambda (allowLegacyTypes : Bool) (lam : Nat)
  | fallthrough
deriving DecidableEq, Repr

/-- Embeds `RegisterOperators::Options::KernelRegistrationConfig`
(src lines 431-441): dispatch key (absent for catch-all), the type-erased
kernel function, and the inferred schema (`nullptr` becomes `none`). -/
structure KernelRegistrationConfig where
  dispatch_key : Option DispatchKey
  func : KernelFunction
  inferred_function_schema : Option FunctionSchema
deriving DecidableEq, Repr

/-- Embeds `RegisterOperators::Options` (src lines 55-449): the accumulated
schema-or-name, the ordered kernel list, and the alias-analysis kind. -/
structure Options where
  schemaOrName_ : Option (OperatorName ⊕ FunctionSchema)
  kernels : List KernelRegistrationConfig
  aliasAnalysisKind_ : Option AliasAnalysisKind
deriving DecidableEq, Repr

/-- Embeds the private `Options` constructor (src lines 423-427): everything
starts unset/empty. -/
def Options.fresh : Options :=
  { schemaOrName_ := none, kernels := [], aliasAnalysisKind_ := none }

/-- Result of a builder step that can raise a `TORCH_CHECK` error. The C++
check throws before mutating, so the `err` constructor carries the state the
object still holds when the exception propagates. -/
inductive CheckResult (α : Type) where
  | ok (val : α)
  | err (e : RegError) (state : α)
deriving DecidableEq, Repr

/-- Embeds the private `Options::kernel(optional<DispatchKey>, KernelFunction&&,
unique_ptr<FunctionSchema>&&)` (src lines 414-421): append one
`KernelRegistrationConfig` to the kernel list. -/
def Options.kernelImpl (o : Options) (dispatch_key : Option DispatchKey)
    (func : KernelFunction) (inferred : Option FunctionSchema) : Options :=
  { o with kernels := o.kernels ++ [{ dispatch_key := dispatch_key, func := func,
                                      inferred_function_schema := inferred }] }

/-- Embeds `Options::schema(FunctionSchema&&)` (src lines 75-79): fails if a
schema-or-name was already specified (check precedes the store, so the stored
value is unchanged on failure), otherwise stores the full schema. -/
def Options.schemaFS (o : Options) (s : FunctionSchema) : CheckResult Options :=
  if o.schemaOrName_.isSome then CheckResult.err RegError.schemaAlreadySpecified o
  else CheckResult.ok { o with schemaOrName_ := some (Sum.inr s) }

/-- Embeds `Options::schema(const std::string&)` (src lines 101-111): fails if
a schema-or-name was already specified, otherwise stores the result of
`torch::jit::parseSchemaOrName` verbatim (the header applies no
`setAliasAnalysis` on this path). -/
def Options.schemaStr (o : Options) (text : String) : CheckResult Options :=
  if o.schemaOrName_.isSome then CheckResult.err RegError.schemaAlreadySpecified o
  else CheckResult.ok { o with schemaOrName_ := some (parseSchemaOrName text) }

/-- Embeds `Options::aliasAnalysis` (src lines 407-411): fails if already set,
otherwise stores the kind. -/
def Options.aliasAnalysis (o : Options) (k : AliasAnalysisKind) : CheckResult Options :=
  if o.aliasAnalysisKind_.isSome then CheckResult.err RegError.aliasAnalysisAlreadySpecified o
  else CheckResult.ok { o with aliasAnalysisKind_ := some k }

/-- Embeds the internal boxed-kernel path
`Options::kernel<BoxedKernelFunction*>(DispatchKey)` (src lines 63-66):
`makeFromBoxedFunction` with a null inferred schema. -/
def Options.kernelBoxed (o : Options) (dispatch_key : DispatchKey) (kernel_func : Nat) : Options :=
  o.kernelImpl (some dispatch_key) (KernelFunction.fromBoxedFunction kernel_func) none

/-- Embeds the internal boxed catch-all path
`Options::catchAllKernel<BoxedKernelFunction*>()` (src lines 69-72). -/
def Options.catchAllKernelBoxed (o : Options) (kernel_func : Nat) : Options :=
  o.kernelImpl none (KernelFunction.fromBoxedFunction kernel_func) none

/-- Embeds the functor path `Options::kernel<KernelFunctor>(DispatchKey, ...)`
(src lines 151-162): `makeFromUnboxedFunctor<false, KernelFunctor>` plus an
inferred schema from the functor's static signature. -/
def Options.kernelFunctor (o : Options) (dispatch_key : DispatchKey)
    (functor : Nat) (sig : FunctionSig) : Options :=
  o.kernelImpl (some dispatch_key) (KernelFunction.fromUnboxedFunctor false functor)
    (inferFunctionSchemaFromFunctor sig)

/-- Embeds the functor catch-all path `Options::catchAllKernel<KernelFunctor>(...)`
(src lines 202-213). -/
def Options.catchAllKernelFunctor (o : Options) (functor : Nat) (sig : FunctionSig) : Options :=
  o.kernelImpl none (KernelFunction.fromUnboxedFunctor false functor)
    (inferFunctionSchemaFromFunctor sig)

/-- Embeds the compile-time function-pointer path
`Options::kernel<FuncType, kernel_func>(DispatchKey)` (src lines 229-241):
`makeFromUnboxedFunction` plus an inferred schema. -/
def Options.kernelFunction (o : Options) (dispatch_key : DispatchKey)
    (kernel_func : Nat) (sig : FunctionSig) : Options :=
  o.kernelImpl (some dispatch_key) (KernelFunction.fromUnboxedFunction kernel_func)
    (inferFunctionSchemaFromFunctor sig)

/-- Embeds `Options::catchAllKernel<FuncType, kernel_func>()` (src lines
257-269). -/
def Options.catchAllKernelFunction (o : Options) (kernel_func : Nat) (sig : FunctionSig) : Options :=
  o.kernelImpl none (KernelFunction.fromUnboxedFunction kernel_func)
    (inferFunctionSchemaFromFunctor sig)

/-- Embeds the runtime function-pointer path
`Options::kernel(DispatchKey, FuncType*)` (src lines 271-283):
`makeFromUnboxedRuntimeFunction` (default `AllowLegacyTypes = false`) plus an
inferred schema. -/
def Options.kernelRuntimeFunction (o : Options) (dispatch_key : DispatchKey)
    (kernel_func : Nat) (sig : FunctionSig) : Options :=
  o.kernelImpl (some dispatch_key) (KernelFunction.fromUnboxedRuntimeFunction false kernel_func)
    (inferFunctionSchemaFromFunctor sig)

/-- Embeds `Options::catchAllKernel(FuncType*)` (src lines 285-297). -/
def Options.catchAllKernelRuntimeFunction (o : Options) (kernel_func : Nat)
    (sig : FunctionSig) : Options :=
  o.kernelImpl none (KernelFunction.fromUnboxedRuntimeFunction false kernel_func)
    (inferFunctionSchemaFromFunctor sig)

/-- Embeds the legacy unboxed-only path
`Options::impl_unboxedOnlyKernel<FuncType, kernel_func>(DispatchKey)`
(src lines 300-311): `makeFromUnboxedOnlyRuntimeFunction` with schema
inference explicitly disabled (`nullptr`). -/
def Options.impl_unboxedOnlyKernel (o : Options) (dispatch_key : DispatchKey)
    (kernel_func : Nat) : Options :=
  o.kernelImpl (some dispatch_key) (KernelFunction.fromUnboxedOnlyRuntimeFunction kernel_func) none

/-- Embeds `Options::impl_unboxedOnlyCatchAllKernel<FuncType, kernel_func>()`
(src lines 314-325). -/
def Options.impl_unboxedOnlyCatchAllKernel (o : Options) (kernel_func : Nat) : Options :=
  o.kernelImpl none (KernelFunction.fromUnboxedOnlyRuntimeFunction kernel_func) none

/-- Embeds the stateless-lambda path `Options::kernel(DispatchKey, Lambda&&)`
(src lines 343-365): `makeFromUnboxedLambda` (default
`AllowLegacyTypes = false`) plus an inferred schema. The overload-resolution
and static-assert admission conditions are modelled separately by
`optionsKernelLambdaAccepts`. -/
def Options.kernelLambda (o : Options) (dispatch_key : DispatchKey)
    (lam : Nat) (sig : FunctionSig) : Options :=
  o.kernelImpl (some dispatch_key) (KernelFunction.fromUnboxedLambda false lam)
    (inferFunctionSchemaFromFunctor sig)

/-- Embeds `Options::catchAllKernel(Lambda&&)` (src lines 383-405). -/
def Options.catchAllKernelLambda (o : Options) (lam : Nat) (sig : FunctionSig) : Options :=
  o.kernelImpl none (KernelFunction.fromUnboxedLambda false lam)
    (inferFunctionSchemaFromFunctor sig)

/-- Embeds `c10::CppFunction` (src lines 645-716): the dispatch key (set only
through `c10::dispatch`), the type-erased kernel function, the inferred
schema (`nullptr` becomes `none`) and the debug string. -/
structure CppFunction where
  dispatch_key_ : Option DispatchKey
  func_ : KernelFunction
  schema_ : Option FunctionSchema
  debug_ : String
deriving DecidableEq, Repr

/-- Embeds the `CppFunction(Func*)` constructor (src lines 648-654):
`makeFromUnboxedRuntimeFunction` (default `AllowLegacyTypes = false`) plus an
inferred schema; `dispatch_key_` is default-initialised to `nullopt`. -/
def CppFunction.ofFunctionPtr (fn : Nat) (sig : FunctionSig) : CppFunction :=
  { dispatch_key_ := none
    func_ := KernelFunction.fromUnboxedRuntimeFunction false fn
    schema_ := inferFunctionSchemaFromFunctor sig
    debug_ := "" }

/-- Embeds the `CppFunction(Lambda&&)` constructor (src lines 657-663). -/
def CppFunction.ofLambda (lam : Nat) (sig : FunctionSig) : CppFunction :=
  { dispatch_key_ := none
    func_ := KernelFunction.fromUnboxedLambda false lam
    schema_ := inferFunctionSchemaFromFunctor sig
    debug_ := "" }

/-- Embeds `CppFunction::makeUnboxedOnly` (src lines 670-676): unboxed-only
runtime function, no schema. -/
def CppFunction.makeUnboxedOnly (fn : Nat) : CppFunction :=
  { dispatch_key_ := none
    func_ := KernelFunction.fromUnboxedOnlyRuntimeFunction fn
    schema_ := none
    debug_ := "" }

/-- Embeds `CppFunction::makeFallthrough` (src lines 679-684). -/
def CppFunction.makeFallthrough : CppFunction :=
  { dispatch_key_ := none
    func_ := KernelFunction.fallthrough
    schema_ := none
    debug_ := "" }

/-- Embeds `CppFunction::makeFromBoxedFunction` (src lines 687-693). -/
def CppFunction.makeFromBoxedFunction (fn : Nat) : CppFunction :=
  { dispatch_key_ := none
    func_ := KernelFunction.fromBoxedFunction fn
    schema_ := none
    debug_ := "" }

/-- Embeds `c10::dispatch(DispatchKey, Func&&)` (src lines 722-731) after the
`CppFunction f(std::forward<Func>(raw_f))` construction step: if the key is
the `CatchAll` sentinel the function carries no dispatch key, otherwise it
carries exactly the given key. -/
def dispatchWithKey (k : DispatchKey) (f : CppFunction) : CppFunction :=
  if k = DispatchKey.CatchAll then { f with dispatch_key_ := none }
  else { f with dispatch_key_ := some k }

/-- Embeds the `deviceTypeToDispatchKey` lambda inside
`c10::dispatch(DeviceType, Func&&)` (src lines 736-754): `CPU`, `CUDA`,
`XLA`, `HIP` and `MSNPU` map to their dispatch keys; every other device type
hits the `TORCH_CHECK(false, ...)` default branch. -/
def deviceTypeToDispatchKey : DeviceType → Except RegError DispatchKey
  | DeviceType.CPU => Except.ok DispatchKey.CPU
  | DeviceType.CUDA => Except.ok DispatchKey.CUDA
  | DeviceType.XLA => Except.ok DispatchKey.XLA
  | DeviceType.HIP => Except.ok DispatchKey.HIP
  | DeviceType.MSNPU => Except.ok DispatchKey.MSNPU
  | t => Except.error (RegError.unsupportedDevice t)

/-- Embeds `c10::dispatch(DeviceType, Func&&)` (src lines 734-756): map the
device type, then delegate to the key overload; the mapping failure
propagates. -/
def dispatchWithDeviceType (t : DeviceType) (f : CppFunction) : Except RegError CppFunction :=
  match deviceTypeToDispatchKey t with
  | Except.ok k => Except.ok (dispatchWithKey k f)
  | Except.error e => Except.error e

/-- Embeds `c10::schema(const char*, AliasAnalysisKind)` (src lines 758-762):
parse, then set the alias-analysis kind. -/
def schemaWithAliasAnalysis (str : String) (k : AliasAnalysisKind) : FunctionSchema :=
  (parseSchema str).setAliasAnalysis k

/-- Embeds `c10::schema(const char*)` (src lines 763-765): parse with the
alias-analysis kind defaulted to `FROM_SCHEMA`. -/
def schemaFromText (str : String) : FunctionSchema :=
  schemaWithAliasAnalysis str AliasAnalysisKind.FROM_SCHEMA

/-- Embeds `detail::constructSchemaOrName(FunctionSchema&&)` (src lines
770-772). -/
def constructSchemaOrNameFS (s : FunctionSchema) : OperatorName ⊕ FunctionSchema :=
  Sum.inr s

/-- Embeds `detail::constructSchemaOrName(OperatorName&&)` (src lines
773-775). -/
def constructSchemaOrNameON (n : OperatorName) : OperatorName ⊕ FunctionSchema :=
  Sum.inl n

/-- Embeds `detail::constructSchemaOrName(const char*)` (src lines 776-782):
parse; if the result is a full schema, set its alias-analysis kind to
`FROM_SCHEMA`. -/
def constructSchemaOrNameStr (str : String) : OperatorName ⊕ FunctionSchema :=
  match parseSchemaOrName str with
  | Sum.inr s => Sum.inr (s.setAliasAnalysis AliasAnalysisKind.FROM_SCHEMA)
  | Sum.inl n => Sum.inl n

/-- Compile-time traits of a candidate lambda/functor argument, as queried by
the `enable_if` guards and `static_assert`s of the header's lambda-kernel
overloads: `guts::is_functor`, `guts::is_stateless_lambda`,
`std::is_base_of<OperatorKernel, ...>`, and whether its function type is
`KernelFunction::BoxedKernelFunction`. -/
structure LambdaTraits where
  is_functor : Bool
  is_stateless_lambda : Bool
  derives_OperatorKernel : Bool
  func_type_is_boxed : Bool
deriving DecidableEq, Repr

/-- Embeds the admission condition of `Options::kernel(DispatchKey, Lambda&&)`
(src lines 343-365): the `enable_if` requires a functor whose function type is
not `BoxedKernelFunction`; the `static_assert`s require that it not derive
from `OperatorKernel` and that it be a stateless lambda. A call compiles
exactly when all four hold. -/
def optionsKernelLambdaAccepts (t : LambdaTraits) : Bool :=
  t.is_functor && !t.func_type_is_boxed && !t.derives_OperatorKernel && t.is_stateless_lambda

/-- Embeds the admission condition of `Options::catchAllKernel(Lambda&&)`
(src lines 383-405): identical guards to the keyed lambda overload. -/
def optionsCatchAllLambdaAccepts (t : LambdaTraits) : Bool :=
  t.is_functor && !t.func_type_is_boxed && !t.derives_OperatorKernel && t.is_stateless_lambda

/-- Embeds the admission condition of the legacy shorthand
`RegisterOperators::op(const std::string&, Lambda&&, Options&&)` (src lines
556-569): the `enable_if` requires a functor that is a stateless lambda; the
`static_assert` requires that it not derive from `OperatorKernel`. -/
def opLambdaAccepts (t : LambdaTraits) : Bool :=
  t.is_functor && t.is_stateless_lambda && !t.derives_OperatorKernel

/-- Embeds the admission condition of the deprecated legacy shorthand
`RegisterOperators::op(const std::string&, Lambda&&, Options&&)` (src lines
571-585, `C10_DEPRECATED_MESSAGE`): the `enable_if` requires a functor that is
NOT a stateless lambda (i.e. a capturing lambda or plain functor); the
`static_assert` requires that it not derive from `OperatorKernel`. Such a
call compiles (with a deprecation warning) and registers the kernel. -/
def opLambdaDeprecatedAccepts (t : LambdaTraits) : Bool :=
  t.is_functor && !t.is_stateless_lambda && !t.derives_OperatorKernel

/-- Embeds the body of the legacy function-pointer shorthand
`RegisterOperators::op(const std::string&, FuncType*, Options&&)` (src lines
528-539): `options.schema(schemaOrName).kernel(nullopt,
makeFromUnboxedRuntimeFunction<AllowLegacyTypes = true>(func), inferred)`.
The `schema` call can raise; the kernel append happens only on success. -/
def opFnPointerShorthand (options : Options) (schemaOrName : String)
    (func : Nat) (sig : FunctionSig) : CheckResult Options :=
  match options.schemaStr schemaOrName with
  | CheckResult.err e st => CheckResult.err e st
  | CheckResult.ok o1 =>
      CheckResult.ok (o1.kernelImpl none (KernelFunction.fromUnboxedRuntimeFunction true func)
        (inferFunctionSchemaFromFunctor sig))

/-- Embeds the body of the legacy stateless-lambda shorthand
`RegisterOperators::op(const std::string&, Lambda&&, Options&&)` (src lines
556-569): `options.schema(schemaOrName).kernel(nullopt,
makeFromUnboxedLambda<AllowLegacyTypes = true>(lambda), inferred)`. The
deprecated capturing overload (src lines 571-585) has the identical body, so
this definition covers both. -/
def opLambdaShorthand (options : Options) (schemaOrName : String)
    (lam : Nat) (sig : FunctionSig) : CheckResult Options :=
  match options.schemaStr schemaOrName with
  | CheckResult.err e st => CheckResult.err e st
  | CheckResult.ok o1 =>
      CheckResult.ok (o1.kernelImpl none (KernelFunction.fromUnboxedLambda true lam)
        (inferFunctionSchemaFromFunctor sig))

/-- Modelled from the spec, section 3: a `KernelEntry` is `{callable,
inferredSchema}`; the concrete storage lives in the dispatcher, outside
`src/`. -/
structure KernelEntry where
  func : KernelFunction
  inferredSchema : Option FunctionSchema
deriving DecidableEq, Repr

/-- Modelled from the spec, section 3 (`OperatorTableRow`): the optional
schema, the single catch-all slot, and the keyed kernel slots (at most one
catch-all OR any number of keyed slots, never both). The dispatcher's table
row type is outside `src/`. -/
structure OperatorTableRow where
  schema : Option FunctionSchema
  catchAllKernel : Option KernelEntry
  keyedKernels : List (DispatchKey × KernelEntry)
deriving DecidableEq, Repr

/-- Modelled from the spec, sections 2 and 3: the process-wide Dispatch
Registry mapping operator names to table rows, with registry-wide per-key
fallback entries. The dispatcher is outside `src/`. -/
structure Registry where
  rows : List (OperatorName × OperatorTableRow)
  fallbackByKey : List (DispatchKey × KernelEntry)
deriving DecidableEq, Repr

/-- Look up the table row of an operator name (structural equality). -/
def Registry.findRow (r : Registry) (name : OperatorName) : Option OperatorTableRow :=
  (r.rows.find? (fun p => p.1 == name)).map (fun p => p.2)

/-- Replace (or insert) the table row of an operator name. -/
def setRow : List (OperatorName × OperatorTableRow) → OperatorName → OperatorTableRow →
    List (OperatorName × OperatorTableRow)
  | [], name, row => [(name, row)]
  | (n, r0) :: rest, name, row =>
      if n == name then (name, row) :: rest else (n, r0) :: setRow rest name row

/-- Modelled from the spec, section 4.4: dispatch resolution. If the operator
was registered catch-all, resolution ignores the key entirely and returns the
single catch-all entry; otherwise look up the keyed slot, then the
registry-wide fallback for that key, and fail with a `ResolutionError` naming
operator and key if both are absent. Read-only. -/
def Registry.resolve (r : Registry) (name : OperatorName) (k : DispatchKey) :
    Except RegError KernelEntry :=
  match r.findRow name with
  | none => Except.error (RegError.unknownOperator name)
  | some row =>
    match row.catchAllKernel with
    | some entry => Except.ok entry
    | none =>
      match (row.keyedKernels.find? (fun p => p.1 == k)).map (fun p => p.2) with
      | some entry => Except.ok entry
      | none =>
        match (r.fallbackByKey.find? (fun p => p.1 == k)).map (fun p => p.2) with
        | some entry => Except.ok entry
        | none => Except.error (RegError.noKernelFound name k)

/-- Modelled from the spec, section 6: `getSchema(OperatorName) ->
FunctionSchema | NotFoundError`. -/
def Registry.getSchema (r : Registry) (name : OperatorName) : Except RegError FunctionSchema :=
  match r.findRow name with
  | none => Except.error (RegError.unknownOperator name)
  | some row =>
    match row.schema with
    | some s => Except.ok s
    | none => Except.error (RegError.unknownOperator name)

/-- Whether a list of dispatch-key slots (where `none` is the catch-all slot)
mentions the same slot twice. -/
def hasDuplicateKey : List (Option DispatchKey) → Bool
  | [] => false
  | k :: rest => rest.contains k || hasDuplicateKey rest

/-- Whether a kernel list mixes a catch-all kernel with a keyed kernel. -/
def mixesCatchAllAndKeyed (ks : List (Option DispatchKey)) : Bool :=
  ks.contains none && ks.any (fun k => k.isSome)

/-- Modelled from the spec, section 4.3 step 2 (the body of
`RegisterOperators::checkNoDuplicateKernels_`, declared at src line 591,
lives outside `src/`): the batch passes exactly when no dispatch key appears
twice, at most one catch-all kernel is present, and no catch-all kernel is
mixed with a keyed kernel. -/
def checkNoDuplicateKernels (kernels : List KernelRegistrationConfig) : Bool :=
  let ks := kernels.map (fun c => c.dispatch_key)
  !(hasDuplicateKey ks || mixesCatchAllAndKeyed ks)

/-- Modelled from the spec, section 4.3 step 1 (the body of
`RegisterOperators::inferSchemaFromKernels_`, declared at src line 590, lives
outside `src/`): if a full schema was given use it; if only a name was given,
take the inferred schemas of the attached kernels, require that they all
agree on the signature, and adopt the given name; fail if no kernel carries
an inferred schema or two inferred schemas disagree. -/
def resolveSchema (son : OperatorName ⊕ FunctionSchema)
    (kernels : List KernelRegistrationConfig) : Except RegError FunctionSchema :=
  match son with
  | Sum.inr s => Except.ok s
  | Sum.inl name =>
    match kernels.filterMap (fun c => c.inferred_function_schema) with
    | [] => Except.error (RegError.cannotInferSchema name)
    | s :: rest =>
      if rest.all (fun s2 => s.sigEq s2) then
        Except.ok { s with name := name }
      else Except.error (RegError.inferredSchemaMismatch name)

/-- Modelled from the spec, section 4.3 step 3: install the resolved schema.
A new operator name gets a fresh row; an existing row requires structural
equality with the already-stored schema. -/
def installSchema (r : Registry) (s : FunctionSchema) : Except RegError Registry :=
  match r.findRow s.name with
  | none =>
      let row : OperatorTableRow :=
        { schema := some s, catchAllKernel := none, keyedKernels := [] }
      Except.ok { r with rows := setRow r.rows s.name row }
  | some row =>
    match row.schema with
    | none => Except.ok { r with rows := setRow r.rows s.name { row with schema := some s } }
    | some existing =>
      if existing.sigEq s then Except.ok r
      else Except.error (RegError.schemaMismatch s.name)

/-- Modelled from the spec, section 4.3 step 4: install one kernel into its
slot. Overwriting an occupied slot is a fatal duplicate; a catch-all insert
conflicts with any keyed slot and vice versa (mutual exclusion, spec
section 3). -/
def installKernel (r : Registry) (name : OperatorName) (key : Option DispatchKey)
    (entry : KernelEntry) : Except RegError Registry :=
  match r.findRow name with
  | none => Except.error (RegError.unknownOperator name)
  | some row =>
    match key with
    | none =>
      if row.catchAllKernel.isSome || !row.keyedKernels.isEmpty then
        Except.error (RegError.slotOccupied name none)
      else
        Except.ok { r with rows := setRow r.rows name { row with catchAllKernel := some entry } }
    | some k =>
      if row.catchAllKernel.isSome || (row.keyedKernels.find? (fun p => p.1 == k)).isSome then
        Except.error (RegError.slotOccupied name (some k))
      else
        let row2 := { row with keyedKernels := row.keyedKernels ++ [(k, entry)] }
        Except.ok { r with rows := setRow r.rows name row2 }

/-- A registration handle as returned by registry insertions: the slot it
owns removal authority over. Modelled from the spec, sections 3 and 4.3
step 5 (`RegistrationHandleRAII` is outside `src/`). `slot = none` denotes
the schema entry, `slot = some key` a kernel slot (`some none` being the
catch-all slot). -/
structure RegHandle where
  name : OperatorName
  slot : Option (Option DispatchKey)
deriving DecidableEq, Repr

/-- Outcome of one registration batch. A `TORCH_CHECK` failure propagates as
a C++ exception, so the `err` constructor carries the registry state at the
moment the error was raised (which exposes any partial insert). -/
inductive RegOutcome where
  | ok (reg : Registry) (handles : List RegHandle)
  | err (e : RegError) (reg : Registry)
deriving DecidableEq, Repr

/-- Install all kernels of a batch in order, accumulating handles; a failure
carries the partially-updated registry. -/
def installKernels (name : OperatorName) : Registry → List RegHandle →
    List KernelRegistrationConfig → RegOutcome
  | r, acc, [] => RegOutcome.ok r acc
  | r, acc, c :: rest =>
    match installKernel r name c.dispatch_key
        { func := c.func, inferredSchema := c.inferred_function_schema } with
    | Except.error e => RegOutcome.err e r
    | Except.ok r2 =>
        installKernels name r2 (acc ++ [{ name := name, slot := some c.dispatch_key }]) rest

/-- Modelled from the spec, section 4.3 (the body of
`RegisterOperators::checkSchemaAndRegisterOp_`, declared at src line 588,
lives outside `src/`; `RegisterOperators::op` at src lines 464-473 forwards
to it): resolve the schema (step 1), run the duplicate-kernel check (step 2)
BEFORE any table mutation, then install the schema (step 3) and the kernels
(step 4), returning one handle per inserted entry (step 5). -/
def registerBatch (r : Registry) (options : Options) : RegOutcome :=
  match options.schemaOrName_ with
  | none => RegOutcome.err RegError.missingSchemaOrName r
  | some son =>
    match resolveSchema son options.kernels with
    | Except.error e => RegOutcome.err e r
    | Except.ok schema =>
      if checkNoDuplicateKernels options.kernels then
        match installSchema r schema with
        | Except.error e => RegOutcome.err e r
        | Except.ok r1 =>
            installKernels schema.name r1 [{ name := schema.name, slot := none }] options.kernels
      else RegOutcome.err (RegError.duplicateKernel schema.name) r

/-- Modelled from the spec, sections 3 and 4.5: one registry entry as seen by
the lifecycle model, tagged with the session that introduced it and the
handle holding its removal authority (spec section 5: "each entry's removal
authority belongs exclusively to the RegistrationHandle that was returned for
it"). `key = none` with `isSchema = true` denotes a schema entry; otherwise
`key = none` is the catch-all kernel slot and `key = some k` a keyed slot. -/
structure OwnedEntry where
  owner : Nat
  handleId : Nat
  name : OperatorName
  key : Option DispatchKey
  isSchema : Bool
deriving DecidableEq, Repr

/-- Modelled from the spec, section 5: the process-wide registry contents as
a sequence of owned entries (insertion order preserved). -/
structure GlobalRegistry where
  entries : List OwnedEntry
deriving DecidableEq, Repr

/-- Modelled from the spec, sections 3 and 9 (`RegistrationHandle` with an
at-most-once revoke): revoking a handle removes exactly the entries that
handle has authority over; revoking an already-revoked or unknown handle
removes nothing (idempotent). -/
def GlobalRegistry.revoke (g : GlobalRegistry) (h : Nat) : GlobalRegistry :=
  { entries := g.entries.filter (fun e => e.handleId != h) }

/-- Modelled from the spec, sections 3 and 4.5: a library session
(`RegisterOperators` instance or `Library`) holding its acquired registration
handles in acquisition order (the `registrars_` vectors at src lines 594 and
921). -/
structure LibrarySession where
  id : Nat
  ownedHandles : List Nat
deriving DecidableEq, Repr

/-- Modelled from the spec, section 4.5: session teardown (the body of
`~RegisterOperators`, declared at src line 48, lives outside `src/`) revokes
every owned handle in the reverse order of acquisition. -/
def LibrarySession.teardown (s : LibrarySession) (g : GlobalRegistry) : GlobalRegistry :=
  s.ownedHandles.reverse.foldl GlobalRegistry.revoke g

/-- Modelled from the spec, section 4.4, over the lifecycle view: resolution
returns the operator's catch-all kernel entry if one exists, else its entry
at the given key. -/
def GlobalRegistry.resolveEntry (g : GlobalRegistry) (name : OperatorName)
    (k : DispatchKey) : Option OwnedEntry :=
  match g.entries.find? (fun e => !e.isSchema && e.name == name && e.key.isNone) with
  | some e => some e
  | none => g.entries.find? (fun e => !e.isSchema && e.name == name && e.key == some k)

/-- C8: `deviceTypeToDispatchKey` is a pure total mapping over the device-type
enumeration: `CPU`, `CUDA`, `XLA`, `HIP` and `MSNPU` map to the dispatch keys
of the same name, and every other device type fails with the fatal
unsupported-device error rather than returning a key. -/
theorem deviceTypeToDispatchKey_total_mapping :
    deviceTypeToDispatchKey DeviceType.CPU = Except.ok DispatchKey.CPU ∧
    deviceTypeToDispatchKey DeviceType.CUDA = Except.ok DispatchKey.CUDA ∧
    deviceTypeToDispatchKey DeviceType.XLA = Except.ok DispatchKey.XLA ∧
    deviceTypeToDispatchKey DeviceType.HIP = Except.ok DispatchKey.HIP ∧
    deviceTypeToDispatchKey DeviceType.MSNPU = Except.ok DispatchKey.MSNPU ∧
    ∀ t : DeviceType, t ≠ DeviceType.CPU → t ≠ DeviceType.CUDA → t ≠ DeviceType.XLA →
      t ≠ DeviceType.HIP → t ≠ DeviceType.MSNPU →
      deviceTypeToDispatchKey t = Except.error (RegError.unsupportedDevice t) := by
  refine ⟨rfl, rfl, rfl, rfl, rfl, ?_⟩
  intro t h1 h2 h3 h4 h5
  cases t <;> simp_all [deviceTypeToDispatchKey]

/-- Witness for C8: the mapping fails on the unmapped device type `MKLDNN`. -/
theorem deviceTypeToDispatchKey_total_mapping_witness :
    deviceTypeToDispatchKey DeviceType.MKLDNN =
      Except.error (RegError.unsupportedDevice DeviceType.MKLDNN) :=
  deviceTypeToDispatchKey_total_mapping.2.2.2.2.2 DeviceType.MKLDNN
    (by decide) (by decide) (by decide) (by decide) (by decide)

/-- C10: `c10::dispatch(DispatchKey, f)` normalizes the sentinel: dispatching
at `CatchAll` stores no dispatch key, dispatching at any other key stores
exactly that key, and dispatching a freshly constructed `CppFunction` (whose
key is `nullopt`) at `CatchAll` is the identity — observably the same as a
keyless catch-all registration. -/
theorem dispatch_catchall_sentinel (f : CppFunction) (k : DispatchKey)
    (fn lam : Nat) (sig : FunctionSig) :
    (dispatchWithKey DispatchKey.CatchAll f).dispatch_key_ = none ∧
    (k ≠ DispatchKey.CatchAll → dispatchWithKey k f = { f with dispatch_key_ := some k }) ∧
    dispatchWithKey DispatchKey.CatchAll (CppFunction.ofFunctionPtr fn sig) =
      CppFunction.ofFunctionPtr fn sig ∧
    dispatchWithKey DispatchKey.CatchAll (CppFunction.ofLambda lam sig) =
      CppFunction.ofLambda lam sig := by
  refine ⟨by simp [dispatchWithKey], fun h => by simp [dispatchWithKey, h], ?_, ?_⟩ <;>
    simp [dispatchWithKey, CppFunction.ofFunctionPtr, CppFunction.ofLambda]

/-- Witness for C10: dispatching at the concrete key `CPU` stores exactly
`CPU`. -/
theorem dispatch_catchall_sentinel_witness :
    dispatchWithKey DispatchKey.CPU (CppFunction.ofFunctionPtr 7 ⟨[], []⟩) =
      { CppFunction.ofFunctionPtr 7 ⟨[], []⟩ with dispatch_key_ := some DispatchKey.CPU } :=
  (dispatch_catchall_sentinel (CppFunction.ofFunctionPtr 7 ⟨[], []⟩) DispatchKey.CPU 7 7
    ⟨[], []⟩).2.1 (by decide)

/-- C6: each kernel construction path carries an inferred schema exactly when
the source form retains static type information. The functor, compile-time
function, runtime function-pointer and stateless-lambda paths (keyed and
catch-all) append a config whose `inferred_function_schema` is the non-none
schema introspected from the callable's static signature; the boxed
stack-based paths and the legacy unboxed-only paths append a config with no
inferred schema. -/
theorem kernel_paths_inferred_schema (o : Options) (k : DispatchKey) (i : Nat)
    (sig : FunctionSig) :
    (o.kernelFunctor k i sig).kernels =
      o.kernels ++ [⟨some k, KernelFunction.fromUnboxedFunctor false i,
        inferFunctionSchemaFromFunctor sig⟩] ∧
    (o.catchAllKernelFunctor i sig).kernels =
      o.kernels ++ [⟨none, KernelFunction.fromUnboxedFunctor false i,
        inferFunctionSchemaFromFunctor sig⟩] ∧
    (o.kernelFunction k i sig).kernels =
      o.kernels ++ [⟨some k, KernelFunction.fromUnboxedFunction i,
        inferFunctionSchemaFromFunctor sig⟩] ∧
    (o.catchAllKernelFunction i sig).kernels =
      o.kernels ++ [⟨none, KernelFunction.fromUnboxedFunction i,
        inferFunctionSchemaFromFunctor sig⟩] ∧
    (o.kernelRuntimeFunction k i sig).kernels =
      o.kernels ++ [⟨some k, KernelFunction.fromUnboxedRuntimeFunction false i,
        inferFunctionSchemaFromFunctor sig⟩] ∧
    (o.catchAllKernelRuntimeFunction i sig).kernels =
      o.kernels ++ [⟨none, KernelFunction.fromUnboxedRuntimeFunction false i,
        inferFunctionSchemaFromFunctor sig⟩] ∧
    (o.kernelLambda k i sig).kernels =
      o.kernels ++ [⟨some k, KernelFunction.fromUnboxedLambda false i,
        inferFunctionSchemaFromFunctor sig⟩] ∧
    (o.catchAllKernelLambda i sig).kernels =
      o.kernels ++ [⟨none, KernelFunction.fromUnboxedLambda false i,
        inferFunctionSchemaFromFunctor sig⟩] ∧
    (inferFunctionSchemaFromFunctor sig).isSome = true ∧
    (o.kernelBoxed k i).kernels =
      o.kernels ++ [⟨some k, KernelFunction.fromBoxedFunction i, none⟩] ∧
    (o.catchAllKernelBoxed i).kernels =
      o.kernels ++ [⟨none, KernelFunction.fromBoxedFunction i, none⟩] ∧
    (o.impl_unboxedOnlyKernel k i).kernels =
      o.kernels ++ [⟨some k, KernelFunction.fromUnboxedOnlyRuntimeFunction i, none⟩] ∧
    (o.impl_unboxedOnlyCatchAllKernel i).kernels =
      o.kernels ++ [⟨none, KernelFunction.fromUnboxedOnlyRuntimeFunction i, none⟩] :=
  ⟨rfl, rfl, rfl, rfl, rfl, rfl, rfl, rfl, rfl, rfl, rfl, rfl, rfl⟩

/-- C9: the legacy shorthand `RegisterOperators::op(schemaOrName, f, options)`
always registers `f` as a catch-all kernel — the appended config has no
dispatch key — built with `AllowLegacyTypes = true`; this holds for both the
function-pointer and the lambda overloads. -/
theorem legacy_shorthand_registers_catchall (o : Options) (text : String)
    (fn lam : Nat) (sig : FunctionSig) (h : o.schemaOrName_ = none) :
    opFnPointerShorthand o text fn sig = CheckResult.ok
      { o with schemaOrName_ := some (parseSchemaOrName text),
               kernels := o.kernels ++ [⟨none,
                 KernelFunction.fromUnboxedRuntimeFunction true fn,
                 inferFunctionSchemaFromFunctor sig⟩] } ∧
    opLambdaShorthand o text lam sig = CheckResult.ok
      { o with schemaOrName_ := some (parseSchemaOrName text),
               kernels := o.kernels ++ [⟨none,
                 KernelFunction.fromUnboxedLambda true lam,
                 inferFunctionSchemaFromFunctor sig⟩] } := by
  obtain ⟨son, ks, ak⟩ := o
  simp only [Options.schemaOrName_] at h
  subst h
  exact ⟨rfl, rfl⟩

/-- Witness for C9: the function-pointer shorthand on a fresh options object
appends a keyless (catch-all) legacy-types kernel. -/
theorem legacy_shorthand_registers_catchall_witness :
    opFnPointerShorthand Options.fresh "my_op" 3 ⟨[], []⟩ = CheckResult.ok
      ⟨some (parseSchemaOrName "my_op"),
       [⟨none, KernelFunction.fromUnboxedRuntimeFunction true 3,
         inferFunctionSchemaFromFunctor ⟨[], []⟩⟩], none⟩ :=
  (legacy_shorthand_registers_catchall Options.fresh "my_op" 3 4 ⟨[], []⟩ rfl).1

/-- C3: `schema(...)` may set the schema-or-name at most once. On a builder
with no stored schema, both overloads succeed and store it; on a builder that
already stores one, both overloads fail with the schema-already-specified
ConfigurationError and leave the stored schema unchanged (the error state is
the original builder). -/
theorem schema_set_once (o : Options) (text text2 : String) (s s2 : FunctionSchema)
    (x : OperatorName ⊕ FunctionSchema) :
    (o.schemaOrName_ = none →
      o.schemaStr text = CheckResult.ok
        { o with schemaOrName_ := some (parseSchemaOrName text) } ∧
      o.schemaFS s = CheckResult.ok { o with schemaOrName_ := some (Sum.inr s) }) ∧
    (o.schemaOrName_ = some x →
      o.schemaStr text2 = CheckResult.err RegError.schemaAlreadySpecified o ∧
      o.schemaFS s2 = CheckResult.err RegError.schemaAlreadySpecified o) ∧
    RegError.schemaAlreadySpecified.isConfigurationError = true := by
  refine ⟨fun h => ?_, fun h => ?_, rfl⟩ <;>
    simp [Options.schemaStr, Options.schemaFS, h]

/-- Witness for C3: the first call on a fresh builder stores the parsed
schema-or-name; a second call on the resulting builder fails with the
schema-already-specified error and the builder still stores the first
value. -/
theorem schema_set_once_witness :
    Options.fresh.schemaStr "aten::add" = CheckResult.ok
      ⟨some (parseSchemaOrName "aten::add"), [], none⟩ ∧
    (⟨some (Sum.inl ⟨"aten", "add", ""⟩), [], none⟩ : Options).schemaStr "aten::mul" =
      CheckResult.err RegError.schemaAlreadySpecified
        ⟨some (Sum.inl ⟨"aten", "add", ""⟩), [], none⟩ :=
  ⟨((schema_set_once Options.fresh "aten::add" "" ⟨⟨"", "", ""⟩, [], [], .CONSERVATIVE⟩
      ⟨⟨"", "", ""⟩, [], [], .CONSERVATIVE⟩ (Sum.inl ⟨"", "", ""⟩)).1 rfl).1,
   ((schema_set_once ⟨some (Sum.inl ⟨"aten", "add", ""⟩), [], none⟩ "" "aten::mul"
      ⟨⟨"", "", ""⟩, [], [], .CONSERVATIVE⟩ ⟨⟨"", "", ""⟩, [], [], .CONSERVATIVE⟩
      (Sum.inl ⟨"aten", "add", ""⟩)).2.1 rfl).1⟩

/-- C4 counterexample: on the full-schema text `"my_op(Tensor a) -> Tensor"`,
the entry point `Options::schema(string)` stores the parse result verbatim —
its alias-analysis kind is the collaborator default `CONSERVATIVE`, not
`FROM_SCHEMA` — while `detail::constructSchemaOrName` on the very same text
does apply the `FROM_SCHEMA` default. So the claim "this holds for every such
entry point, including Options::schema(string)" fails at this input. -/
theorem options_schema_no_from_schema_default :
    Options.fresh.schemaStr "my_op(Tensor a) -> Tensor" = CheckResult.ok
      ⟨some (Sum.inr (parseSchema "my_op(Tensor a) -> Tensor")), [], none⟩ ∧
    (parseSchema "my_op(Tensor a) -> Tensor").aliasAnalysisKind =
      AliasAnalysisKind.CONSERVATIVE ∧
    AliasAnalysisKind.CONSERVATIVE ≠ AliasAnalysisKind.FROM_SCHEMA ∧
    constructSchemaOrNameStr "my_op(Tensor a) -> Tensor" = Sum.inr
      ((parseSchema "my_op(Tensor a) -> Tensor").setAliasAnalysis
        AliasAnalysisKind.FROM_SCHEMA) := by
  refine ⟨?_, rfl, by decide, ?_⟩ <;> rfl

/-- C4 as amended: the `FROM_SCHEMA` defaulting on a successful full-schema
parse holds for `c10::schema(const char*)` (unconditionally) and for
`detail::constructSchemaOrName(const char*)` (whenever the parse yields a
full schema); `Options::schema(string)`, however, stores the parse result
without applying the default. -/
theorem from_schema_default_entry_points (str : String) (k : AliasAnalysisKind)
    (o : Options) :
    (schemaFromText str).aliasAnalysisKind = AliasAnalysisKind.FROM_SCHEMA ∧
    (schemaWithAliasAnalysis str k).aliasAnalysisKind = k ∧
    (∀ s2, constructSchemaOrNameStr str = Sum.inr s2 →
      s2.aliasAnalysisKind = AliasAnalysisKind.FROM_SCHEMA) ∧
    (o.schemaOrName_ = none →
      o.schemaStr str = CheckResult.ok
        { o with schemaOrName_ := some (parseSchemaOrName str) }) := by
  refine ⟨rfl, rfl, ?_, fun h => ?_⟩
  · intro s2 h2
    unfold constructSchemaOrNameStr at h2
    cases hp : parseSchemaOrName str with
    | inl n => rw [hp] at h2; exact absurd h2 (by simp)
    | inr s =>
        rw [hp] at h2
        simp only [Sum.inr.injEq] at h2
        rw [← h2]
        rfl
  · simp [Options.schemaStr, h]

/-- Witness for C4 (amended): on the concrete text
`"my_op(Tensor a) -> Tensor"`, `constructSchemaOrName` yields a full schema
whose alias-analysis kind is `FROM_SCHEMA`. -/
theorem from_schema_default_entry_points_witness :
    ((parseSchema "my_op(Tensor a) -> Tensor").setAliasAnalysis
      AliasAnalysisKind.FROM_SCHEMA).aliasAnalysisKind = AliasAnalysisKind.FROM_SCHEMA :=
  (from_schema_default_entry_points "my_op(Tensor a) -> Tensor"
    AliasAnalysisKind.FROM_SCHEMA Options.fresh).2.2.1
    ((parseSchema "my_op(Tensor a) -> Tensor").setAliasAnalysis
      AliasAnalysisKind.FROM_SCHEMA) rfl

/-- C5 counterexample: the traits of a capturing (stateful) lambda — a
functor that is not a stateless lambda, does not derive from
`OperatorKernel`, and is not boxed — are accepted by the deprecated legacy
shorthand `RegisterOperators::op(schemaOrName, lambda)` (src lines 571-585),
even though the same traits are rejected by `Options::kernel`. So "a
capturing lambda is never accepted as a kernel" fails. -/
theorem deprecated_op_accepts_capturing_lambda :
    opLambdaDeprecatedAccepts ⟨true, false, false, false⟩ = true ∧
    LambdaTraits.is_stateless_lambda ⟨true, false, false, false⟩ = false ∧
    optionsKernelLambdaAccepts ⟨true, false, false, false⟩ = false ∧
    opLambdaAccepts ⟨true, false, false, false⟩ = false := by decide

/-- C5 as amended: the `Options::kernel` / `Options::catchAllKernel` lambda
paths and the non-deprecated `op(schemaOrName, lambda)` shorthand accept only
stateless (capture-free) lambdas; the deprecated `op(schemaOrName, lambda)`
overload, by contrast, accepts exactly the capturing (non-stateless) functor
shapes, so capture rejection does not extend to that path. -/
theorem lambda_paths_statelessness (t : LambdaTraits) :
    (optionsKernelLambdaAccepts t = true → t.is_stateless_lambda = true) ∧
    (optionsCatchAllLambdaAccepts t = true → t.is_stateless_lambda = true) ∧
    (opLambdaAccepts t = true → t.is_stateless_lambda = true) ∧
    (opLambdaDeprecatedAccepts t = true →
      t.is_stateless_lambda = false ∧ t.is_functor = true) := by
  obtain ⟨f, st, d, b⟩ := t
  refine ⟨fun h => ?_, fun h => ?_, fun h => ?_, fun h => ?_⟩ <;>
    simp_all [optionsKernelLambdaAccepts, optionsCatchAllLambdaAccepts,
      opLambdaAccepts, opLambdaDeprecatedAccepts]

/-- Witness for C5 (amended): the traits of a stateless lambda are accepted
by `Options::kernel` and are indeed stateless. -/
theorem lambda_paths_statelessness_witness :
    LambdaTraits.is_stateless_lambda ⟨true, true, false, false⟩ = true :=
  (lambda_paths_statelessness ⟨true, true, false, false⟩).1 (by decide)

/-- C1: a registration batch whose kernel list fails the duplicate check
(same dispatch key twice, two catch-all kernels, or a catch-all mixed with a
keyed kernel) is rejected by `RegisterOperators::op` with the duplicate-kernel
ConfigurationError, and the registry state carried by the error is exactly
the original registry: no schema and no kernel from the batch was inserted. -/
theorem duplicate_batch_atomic_rejection (r : Registry) (o : Options)
    (son : OperatorName ⊕ FunctionSchema) (s : FunctionSchema)
    (hson : o.schemaOrName_ = some son)
    (hres : resolveSchema son o.kernels = Except.ok s)
    (hdup : checkNoDuplicateKernels o.kernels = false) :
    registerBatch r o = RegOutcome.err (RegError.duplicateKernel s.name) r ∧
    (RegError.duplicateKernel s.name).isConfigurationError = true := by
  refine ⟨?_, rfl⟩
  simp only [registerBatch, hson, hres, hdup, Bool.false_eq_true, if_false]

/-- Witness for C1: a batch with an explicit schema and two kernels under the
same key `CPU` is rejected with the duplicate-kernel error, the registry
staying empty. -/
theorem duplicate_batch_atomic_rejection_witness :
    registerBatch ⟨[], []⟩
      ⟨some (Sum.inr ⟨⟨"", "my_op", ""⟩, [], [], AliasAnalysisKind.CONSERVATIVE⟩),
       [⟨some DispatchKey.CPU, KernelFunction.fromUnboxedFunctor false 1, none⟩,
        ⟨some DispatchKey.CPU, KernelFunction.fromUnboxedFunctor false 2, none⟩],
       none⟩ =
      RegOutcome.err (RegError.duplicateKernel ⟨"", "my_op", ""⟩) ⟨[], []⟩ :=
  (duplicate_batch_atomic_rejection ⟨[], []⟩
    ⟨some (Sum.inr ⟨⟨"", "my_op", ""⟩, [], [], AliasAnalysisKind.CONSERVATIVE⟩),
     [⟨some DispatchKey.CPU, KernelFunction.fromUnboxedFunctor false 1, none⟩,
      ⟨some DispatchKey.CPU, KernelFunction.fromUnboxedFunctor false 2, none⟩],
     none⟩
    (Sum.inr ⟨⟨"", "my_op", ""⟩, [], [], AliasAnalysisKind.CONSERVATIVE⟩)
    ⟨⟨"", "my_op", ""⟩, [], [], AliasAnalysisKind.CONSERVATIVE⟩
    rfl rfl rfl).1

/-- C2: for an operator whose table row holds a catch-all kernel, resolution
returns that single entry at every dispatch key; the key does not affect the
result. -/
theorem catchall_resolution_ignores_key (r : Registry) (name : OperatorName)
    (row : OperatorTableRow) (e : KernelEntry)
    (hrow : r.findRow name = some row) (hca : row.catchAllKernel = some e) :
    (∀ k : DispatchKey, r.resolve name k = Except.ok e) ∧
    (∀ k1 k2 : DispatchKey, r.resolve name k1 = r.resolve name k2) := by
  have h1 : ∀ k : DispatchKey, r.resolve name k = Except.ok e := by
    intro k
    simp only [Registry.resolve, hrow, hca]
  exact ⟨h1, fun k1 k2 => (h1 k1).trans (h1 k2).symm⟩

/-- Witness for C2: in a registry whose only row for `my_op` is a catch-all
entry, resolution at the concrete key `XLA` returns that entry. -/
theorem catchall_resolution_ignores_key_witness :
    Registry.resolve
      ⟨[(⟨"", "my_op", ""⟩,
         ⟨none, some ⟨KernelFunction.fromUnboxedFunctor false 5, none⟩, []⟩)], []⟩
      ⟨"", "my_op", ""⟩ DispatchKey.XLA =
      Except.ok ⟨KernelFunction.fromUnboxedFunctor false 5, none⟩ :=
  ((catchall_resolution_ignores_key
    ⟨[(⟨"", "my_op", ""⟩,
       ⟨none, some ⟨KernelFunction.fromUnboxedFunctor false 5, none⟩, []⟩)], []⟩
    ⟨"", "my_op", ""⟩
    ⟨none, some ⟨KernelFunction.fromUnboxedFunctor false 5, none⟩, []⟩
    ⟨KernelFunction.fromUnboxedFunctor false 5, none⟩ rfl rfl).1) DispatchKey.XLA

/-- Revoking a list of handles (in any order) leaves exactly the entries
whose handle is not in the list. -/
theorem foldl_revoke_entries (hs : List Nat) (g : GlobalRegistry) :
    (hs.foldl GlobalRegistry.revoke g).entries =
      g.entries.filter (fun e => !hs.contains e.handleId) := by
  induction hs generalizing g with
  | nil => simp
  | cons h hs ih =>
    rw [List.foldl_cons, ih]
    simp only [GlobalRegistry.revoke, List.filter_filter]
    apply List.filter_congr
    intro e _
    by_cases h1 : e.handleId = h <;> by_cases h2 : e.handleId ∈ hs <;>
      simp [List.contains_cons, Bool.not_or, bne, h1, h2]

/-- `find?` commutes with a filter that keeps the found element: the first
match survives filtering and stays first. -/
theorem find?_filter_some {α : Type} (p q : α → Bool) (l : List α) (e : α)
    (h : l.find? p = some e) (hq : q e = true) :
    (l.filter q).find? p = some e := by
  induction l with
  | nil => simp at h
  | cons a l ih =>
    by_cases hpa : p a = true
    · rw [List.find?_cons_of_pos _ hpa] at h
      injection h with h
      subst h
      rw [List.filter_cons_of_pos hq, List.find?_cons_of_pos _ hpa]
    · rw [List.find?_cons_of_neg _ hpa] at h
      by_cases hqa : q a = true
      · rw [List.filter_cons_of_pos hqa, List.find?_cons_of_neg _ hpa]
        exact ih h
      · rw [List.filter_cons_of_neg (by simpa using hqa)]
        exact ih h

/-- A `find?` that fails on a list also fails on any filtering of it. -/
theorem find?_filter_none {α : Type} (p q : α → Bool) (l : List α)
    (h : l.find? p = none) : (l.filter q).find? p = none := by
  rw [List.find?_eq_none] at h ⊢
  intro x hx
  exact h x (List.mem_of_mem_filter hx)

/-- C7: session teardown has a precise frame. If the session's owned handles
are exactly the handles of its own entries (ownership consistency), then
tearing the session down leaves exactly the entries of the other sessions;
in particular every entry introduced by another session is still present, and
every resolution that answered with another session's entry still answers
with that same entry afterwards. -/
theorem session_teardown_frame (g : GlobalRegistry) (s : LibrarySession)
    (hcons : ∀ e, e ∈ g.entries → (e.handleId ∈ s.ownedHandles ↔ e.owner = s.id)) :
    (s.teardown g).entries = g.entries.filter (fun e => e.owner != s.id) ∧
    (∀ e, e ∈ g.entries → e.owner ≠ s.id → e ∈ (s.teardown g).entries) ∧
    (∀ name k e, g.resolveEntry name k = some e → e.owner ≠ s.id →
      (s.teardown g).resolveEntry name k = some e) := by
  have hent : (s.teardown g).entries = g.entries.filter (fun e => e.owner != s.id) := by
    unfold LibrarySession.teardown
    rw [foldl_revoke_entries]
    apply List.filter_congr
    intro e he
    have hiff := hcons e he
    by_cases ho : e.owner = s.id
    · have hm : e.handleId ∈ s.ownedHandles := hiff.mpr ho
      simp [List.mem_reverse, hm, ho]
    · have hm : e.handleId ∉ s.ownedHandles := fun hmem => ho (hiff.mp hmem)
      simp [List.mem_reverse, hm, ho]
  refine ⟨hent, ?_, ?_⟩
  · intro e he ho
    rw [hent, List.mem_filter]
    exact ⟨he, by simpa using ho⟩
  · intro name k e hres ho
    unfold GlobalRegistry.resolveEntry at hres ⊢
    rw [hent]
    cases hfa : g.entries.find? (fun e2 => !e2.isSchema && e2.name == name && e2.key.isNone) with
    | some e1 =>
      rw [hfa] at hres
      injection hres with hres
      subst hres
      rw [find?_filter_some _ _ _ _ hfa (by simpa using ho)]
    | none =>
      rw [hfa] at hres
      rw [find?_filter_none _ _ _ hfa]
      exact find?_filter_some _ _ _ _ hres (by simpa using ho)

/-- Witness for C7: tearing down session 1 (owning handle 10) removes its
`CPU` entry for `add` and leaves session 2's `CUDA` entry in place. -/
theorem session_teardown_frame_witness :
    (LibrarySession.teardown ⟨1, [10]⟩
      ⟨[⟨1, 10, ⟨"", "add", ""⟩, some DispatchKey.CPU, false⟩,
        ⟨2, 20, ⟨"", "add", ""⟩, some DispatchKey.CUDA, false⟩]⟩).entries =
      [⟨2, 20, ⟨"", "add", ""⟩, some DispatchKey.CUDA, false⟩] :=
  (session_teardown_frame
    ⟨[⟨1, 10, ⟨"", "add", ""⟩, some DispatchKey.CPU, false⟩,
      ⟨2, 20, ⟨"", "add", ""⟩, some DispatchKey.CUDA, false⟩]⟩
    ⟨1, [10]⟩ (by decide)).1
